import Mathlib

/-!
Verification of the hw1 scaffolding: a shallow embedding of
`src/code/python_tutorial.py` (the `Square`, `LoggingTape`, `Logger`, `Car`
classes) and `src/env_setup/setup.py` (the environment provisioning script),
with theorems settling the specified properties.

The tutorial file is a homework template: the bodies of
`LoggingTape.__enter__`, `LoggingTape.__exit__` and `LoggingTape.add_to_log`
are `pass`, and `LoggingTape.__init__` leaves `self.logs` as `...`.  Where a
body is missing, the corresponding definition below is modelled from the
specification and says so in its doc comment.  Everything else is translated
from the source.
-/

/-- Errors surfaced by the modelled Python code: the arity `TypeError` of a
bad constructor call, the append-outside-window misuse error, and the
double-open (window already active) error. -/
inductive PyError where
  | typeError
  | appendOutsideWindow
  | windowAlreadyActive
  deriving DecidableEq, Repr

/-- Python values passed as constructor arguments (only strings and integers
appear in the local tests). -/
inductive PyValue where
  | str (s : String)
  | int (n : Int)
  deriving DecidableEq, Repr

/-- `Square.__init__(self)` declares no parameter besides `self` and its body
is `pass`: a constructed `Square` carries no attributes at all. -/
structure Square where
  deriving DecidableEq, Repr

/-- Calling `Square(...)`: Python checks the call arity against
`__init__(self)`, which accepts zero arguments, so any argument list other
than the empty one raises `TypeError` instead of constructing the object. -/
def Square.construct (args : List PyValue) : Except PyError Square :=
  if args.length = 0 then .ok ⟨⟩ else .error .typeError

/-- The program state for the logging classes: the heap of `LoggingTape`
objects (each one is its ordered list of log lines, addressed by allocation
index) together with the class attribute `Logger.logging_tape`, which either
refers to the active tape or is `None`. -/
structure LogWorld where
  tapes : List (List String)
  slot : Option Nat
  deriving DecidableEq, Repr

/-- The state before any window is opened: no tape allocated and
`Logger.logging_tape = None` (source: `logging_tape: LoggingTape | None = None`). -/
def initialWorld : LogWorld := ⟨[], none⟩

/-- Modelled from the spec: the body of `LoggingTape.__enter__` is missing
(`pass`).  Per the contract for `open()`, it initializes an empty ordered
entry sequence, publishes the new recorder into the ActiveRecorderSlot
(`Logger.logging_tape`) and returns the recorder itself; it fails fast with
a window-already-active error when a window is already open on the slot. -/
def tapeEnter (w : LogWorld) : Except PyError (LogWorld × Nat) :=
  match w.slot with
  | some _ => .error .windowAlreadyActive
  | none => .ok (⟨w.tapes ++ [[]], some w.tapes.length⟩, w.tapes.length)

/-- Modelled from the spec: the body of `LoggingTape.add_to_log` is missing
(`pass`).  Per the contract for `append(entry)`, it adds `entry` to the end
of tape `r`, with no other effect. -/
def add_to_log (w : LogWorld) (r : Nat) (entry : String) : LogWorld :=
  { w with tapes := w.tapes.set r (w.tapes.getD r [] ++ [entry]) }

/-- Modelled from the spec: the body of `LoggingTape.__exit__` is missing
(`pass`).  Per the contract for `close()`, it resets the ActiveRecorderSlot
to empty and does not clear the entry sequence of any tape; returning a falsy
value, it does not suppress an exception raised in the window body. -/
def tapeExit (w : LogWorld) : LogWorld :=
  { w with slot := none }

/-- `LoggingTape.print_logs` (from the source: `for log in self.logs:
print(log)`): the lines written to standard output are exactly the entries
of tape `r`, in order. -/
def print_logs (w : LogWorld) (r : Nat) : List String :=
  w.tapes.getD r []

/-- `Car.travel` (from the source:
`self.logging_tape.add_to_log(f"Traveled Distance {distance}")`): the tape
is resolved through the class attribute `Logger.logging_tape` at call time;
when the slot is `None` the append surfaces as an error rather than being
silently dropped (the error policy is modelled from the spec; the stub code
would raise `AttributeError` on the `None` dereference). -/
def Car.travel (w : LogWorld) (distance : Nat) : Except PyError LogWorld :=
  match w.slot with
  | none => .error .appendOutsideWindow
  | some r => .ok (add_to_log w r ("Traveled Distance " ++ toString distance))

/-- Semantics of the Python statement `with LoggingTape() as tape: body`:
`__enter__` runs first; the body then transforms the state and may end with a
raised exception (the `Option String`); `__exit__` runs unconditionally on
window exit, after which the exception, if any, propagates unchanged. -/
def runWindow (w : LogWorld) (body : LogWorld → Nat → LogWorld × Option String) :
    Except PyError (LogWorld × Nat × Option String) :=
  match tapeEnter w with
  | .error e => .error e
  | .ok (w1, r) =>
    let (w2, exc) := body w1 r
    .ok (tapeExit w2, r, exc)

/-- A window body that calls `tape.add_to_log` once per entry, in order. -/
def appendAll (es : List String) (w : LogWorld) (r : Nat) : LogWorld :=
  es.foldl (fun acc e => add_to_log acc r e) w

/-- A window body that calls `car.travel(d)` (the local test on the source):
inside a window the call succeeds; the error branch is unreachable there. -/
def travelBody (d : Nat) (w : LogWorld) (_r : Nat) : LogWorld × Option String :=
  match Car.travel w d with
  | .ok w1 => (w1, none)
  | .error _ => (w, some "AttributeError")

/-- Lexicographic comparison of `(major, minor)` pairs, exactly how Python
compares the `sys.version_info[:2]` tuples in `check_python_version`. -/
def tuple2Lt (a b : Nat × Nat) : Bool :=
  decide (a.1 < b.1 ∨ (a.1 = b.1 ∧ a.2 < b.2))

/-- `check_python_version` from `setup.py`: returns whether the interpreter
version is accepted together with the lines printed.  The source rejects when
`version[:2] < (3, 11)` or `version[:2] > (3, 12)` and accepts otherwise. -/
def check_python_version (major minor micro : Nat) : Bool × List String :=
  let found := "Found Python " ++ toString major ++ "." ++ toString minor ++ "." ++ toString micro
  if tuple2Lt (major, minor) (3, 11) then
    (false, [found,
             "Error: Python 3.11+ required, found " ++ toString major ++ "." ++ toString minor,
             "Install Python 3.11 from: https://python.org/downloads/"])
  else if tuple2Lt (3, 12) (major, minor) then
    (false, [found,
             "Error: Python " ++ toString major ++ "." ++ toString minor ++ " not supported by TensorFlow 2.15",
             "Please install Python 3.11 or 3.12:"])
  else
    (true, [found, "Python " ++ toString major ++ "." ++ toString minor ++ " is compatible"])

/-- The outcome of the version gate at the top of `main`. -/
inductive MainStep where
  | exitCode (code : Nat)
  | proceed
  deriving DecidableEq, Repr

/-- The first step of `main` in `setup.py`:
`if not check_python_version(): ... sys.exit(1)`. -/
def main_version_gate (major minor micro : Nat) : MainStep :=
  if (check_python_version major minor micro).1 then .proceed else .exitCode 1

/-- The result object of a completed `subprocess.run` call. -/
structure CmdResult where
  returncode : Int
  deriving DecidableEq, Repr

/-- `subprocess.run(cmd, check=check, ...)`: raises `CalledProcessError`
(the `.error` branch) exactly when `check` is set and the command exits
nonzero; otherwise it completes with the return code. -/
def subprocess_run (check : Bool) (code : Int) : Except CmdResult CmdResult :=
  if check = true ∧ code ≠ 0 then .error ⟨code⟩ else .ok ⟨code⟩

/-- `run_command` from `setup.py`: runs the command and, when
`CalledProcessError` is raised, prints the failure and returns `None`
instead of propagating the exception. -/
def run_command (check : Bool) (code : Int) : Option CmdResult :=
  match subprocess_run check code with
  | .ok r => some r
  | .error _ => none

/-- The `REQUIREMENTS_FILE` constant of `setup.py`. -/
def REQUIREMENTS_FILE : String := "env_setup/requirements.txt"

/-- Homebrew packages installed by `check_system_dependencies` on mac. -/
def brewDeps : List String := ["python@3.11", "hdf5", "pkg-config"]

/-- apt packages installed by `check_system_dependencies` on Ubuntu/Debian. -/
def aptDeps : List String :=
  ["python3.11", "python3.11-venv", "python3.11-dev", "libhdf5-dev", "pkg-config", "build-essential"]

/-- yum packages installed by `check_system_dependencies` on CentOS/RHEL. -/
def yumDeps : List String :=
  ["python311", "python311-devel", "hdf5-devel", "pkgconfig", "gcc", "gcc-c++"]

/-- dnf packages installed by `check_system_dependencies` on Fedora. -/
def dnfDeps : List String :=
  ["python3.11", "python3-devel", "hdf5-devel", "pkgconfig", "gcc", "gcc-c++"]

/-- `check_system_dependencies` from `setup.py`, parametrized by `which`
(tool lookup) and `rc`, the value each `run_command` call returns for a given
command text.  On mac it requires `brew` and conditionally installs the brew
packages; on linux it runs the detected package manager.  The results of the
`sudo apt-get`, `sudo yum`, `sudo dnf` and `brew install` calls are discarded,
and the function returns `True` on every path past the brew check. -/
def check_system_dependencies (os_type : String) (which : String → Bool)
    (rc : String → Option CmdResult) : Bool :=
  if os_type = "mac" then
    if which "brew" = false then false
    else
      let _ := brewDeps.map (fun dep =>
        match rc ("brew list " ++ dep) with
        | some result => if result.returncode ≠ 0 then rc ("brew install " ++ dep) else none
        | none => none)
      true
  else
    if os_type = "linux" then
      if which "apt-get" then
        let _ := rc "sudo apt-get update"
        let _ := rc ("sudo apt-get install -y " ++ String.intercalate " " aptDeps)
        true
      else if which "yum" then
        let _ := rc ("sudo yum install -y " ++ String.intercalate " " yumDeps)
        true
      else if which "dnf" then
        let _ := rc ("sudo dnf install -y " ++ String.intercalate " " dnfDeps)
        true
      else true
    else true

/-- `install_requirements` from `setup.py`: fails when the requirements file
is missing; upgrades pip, where a `None` from `run_command` aborts; installs
the requirements, retrying once with `--no-cache-dir`, where a `None` from
both attempts makes the step fail. -/
def install_requirements (req_file_exists : Bool) (python_exe pip_exe : String)
    (rc : String → Option CmdResult) : Bool :=
  if req_file_exists = false then false
  else
    match rc (python_exe ++ " -m pip install --upgrade pip") with
    | none => false
    | some _ =>
      match rc (pip_exe ++ " install -r " ++ REQUIREMENTS_FILE) with
      | some _ => true
      | none =>
        match rc (pip_exe ++ " install --no-cache-dir -r " ++ REQUIREMENTS_FILE) with
        | some _ => true
        | none => false

/-- `setup_jupyter_kernel` from `setup.py`: registers the ipykernel and
reports failure exactly when `run_command` returned `None`. -/
def setup_jupyter_kernel (python_exe : String) (rc : String → Option CmdResult) : Bool :=
  match rc (python_exe ++ " -m ipykernel install --user --name csci1470") with
  | some _ => true
  | none => false

/-- The `test_imports` list of `verify_installation`. -/
def test_imports : List String :=
  ["numpy", "tensorflow", "pandas", "matplotlib", "sklearn", "PIL", "h5py"]

/-- `verify_installation` from `setup.py`: imports each package with the venv
interpreter; a `None` result or a nonzero return code fails the check. -/
def verify_installation (python_exe : String) (rc : String → Option CmdResult) : Bool :=
  test_imports.all (fun package =>
    match rc (python_exe ++ " -c import " ++ package) with
    | some result => result.returncode == 0
    | none => false)

/-- `create_virtual_environment` from `setup.py`: keeps an existing
environment unless the user answers `y`; otherwise runs `python -m venv` and
returns `None` (failure) exactly when `run_command` returned `None`. -/
def create_virtual_environment (env_exists : Bool) (response : String)
    (sys_executable env_path : String) (rc : String → Option CmdResult) : Option String :=
  if env_exists = true ∧ response ≠ "y" then some env_path
  else
    match rc (sys_executable ++ " -m venv " ++ env_path) with
    | none => none
    | some _ => some env_path

/-- Helper: appending entries one by one into the only allocated tape
concatenates them onto its log, preserving the slot. -/
theorem appendAll_single_tape (es acc : List String) :
    appendAll es ⟨[acc], some 0⟩ 0 = ⟨[acc ++ es], some 0⟩ := by
  induction es generalizing acc with
  | nil => simp [appendAll]
  | cons e es ih =>
    have h1 : add_to_log ⟨[acc], some 0⟩ 0 e = ⟨[acc ++ [e]], some 0⟩ := rfl
    have h2 : appendAll (e :: es) ⟨[acc], some 0⟩ 0 = appendAll es ⟨[acc ++ [e]], some 0⟩ 0 := by
      simp [appendAll, h1]
    rw [h2, ih]
    simp

/-- C1: for every sequence of entries appended during a single open window via
`add_to_log`, calling `print_logs` after the window closes outputs exactly
those lines in insertion order; in particular, opening a window, appending
"Hi!", closing, and dumping outputs exactly the one line "Hi!". -/
theorem window_dump_in_insertion_order (es : List String) :
    runWindow initialWorld (fun w r => (appendAll es w r, none)) =
      .ok (⟨[es], none⟩, 0, none)
    ∧ print_logs ⟨[es], none⟩ 0 = es
    ∧ runWindow initialWorld (fun w r => (add_to_log w r "Hi!", none)) =
      .ok (⟨[["Hi!"]], none⟩, 0, none)
    ∧ print_logs ⟨[["Hi!"]], none⟩ 0 = ["Hi!"] := by
  refine ⟨?_, rfl, rfl, rfl⟩
  have h := appendAll_single_tape es []
  simp only [List.nil_append] at h
  simp [runWindow, tapeEnter, initialWorld, tapeExit, h]

/-- C2: when the window body raises an exception, the exit step still runs:
afterwards the slot `Logger.logging_tape` is `None`, the entries appended up
to the exit remain queryable on the tape, and the exception propagates
unchanged to the caller. -/
theorem window_exit_on_exception (es : List String) (e : String) :
    runWindow initialWorld (fun w r => (appendAll es w r, some e)) =
      .ok (⟨[es], none⟩, 0, some e)
    ∧ (⟨[es], none⟩ : LogWorld).slot = none
    ∧ print_logs ⟨[es], none⟩ 0 = es := by
  refine ⟨?_, rfl, rfl⟩
  have h := appendAll_single_tape es []
  simp only [List.nil_append] at h
  simp [runWindow, tapeEnter, initialWorld, tapeExit, h]

/-- C3: opening a window initializes an empty ordered entry sequence,
publishes the recorder into `Logger.logging_tape`, and returns that same
recorder, so the name bound by the with-statement is the active recorder. -/
theorem enter_publishes_and_returns_tape (w : LogWorld) (h : w.slot = none) :
    ∃ r w1, tapeEnter w = .ok (w1, r) ∧ w1.slot = some r ∧ print_logs w1 r = [] := by
  refine ⟨w.tapes.length, ⟨w.tapes ++ [[]], some w.tapes.length⟩, ?_, rfl, ?_⟩
  · simp [tapeEnter, h]
  · simp [print_logs]

/-- C3 witness: the property instantiated at the initial state. -/
theorem enter_publishes_and_returns_tape_witness :
    ∃ r w1, tapeEnter initialWorld = .ok (w1, r) ∧ w1.slot = some r
      ∧ print_logs w1 r = [] :=
  enter_publishes_and_returns_tape initialWorld rfl

/-- C4: an append attempted while no window is open (the slot holds no
recorder) surfaces as an explicit error and is never silently dropped: the
call cannot return a successor state. -/
theorem append_outside_window_errors (w : LogWorld) (d : Nat) (h : w.slot = none) :
    Car.travel w d = .error .appendOutsideWindow
    ∧ ∀ w1, Car.travel w d ≠ .ok w1 := by
  constructor
  · simp [Car.travel, h]
  · intro w1 hc
    simp [Car.travel, h] at hc

/-- C4 witness: the property instantiated at the initial state with
distance 5. -/
theorem append_outside_window_errors_witness :
    Car.travel initialWorld 5 = .error .appendOutsideWindow
    ∧ ∀ w1, Car.travel initialWorld 5 ≠ .ok w1 :=
  append_outside_window_errors initialWorld 5 rfl

/-- C5: opening a second window while one is already open fails fast with an
explicit error, and no state with a replaced recorder is produced: the open
cannot return successfully. -/
theorem double_open_fails_fast (w : LogWorld) (r : Nat) (h : w.slot = some r) :
    tapeEnter w = .error .windowAlreadyActive
    ∧ ∀ p, tapeEnter w ≠ .ok p := by
  constructor
  · simp [tapeEnter, h]
  · intro p hc
    simp [tapeEnter, h] at hc

/-- C5 witness: the property instantiated at a state with one open window. -/
theorem double_open_fails_fast_witness :
    tapeEnter ⟨[[]], some 0⟩ = .error .windowAlreadyActive
    ∧ ∀ p, tapeEnter (⟨[[]], some 0⟩ : LogWorld) ≠ .ok p :=
  double_open_fails_fast ⟨[[]], some 0⟩ 0 rfl

/-- C6: calling `Car.travel` with distance 5 inside an open window appends
exactly the entry "Traveled Distance 5", which the dump of that window then
shows as its one line; called with no window open it produces the
append-outside-window error. -/
theorem car_travel_logs_distance :
    runWindow initialWorld (travelBody 5) =
      .ok (⟨[["Traveled Distance 5"]], none⟩, 0, none)
    ∧ print_logs ⟨[["Traveled Distance 5"]], none⟩ 0 = ["Traveled Distance 5"]
    ∧ Car.travel initialWorld 5 = .error .appendOutsideWindow :=
  ⟨rfl, rfl, rfl⟩

/-- C7: dumping a recorder that received zero appends produces zero output
lines and no error, during the window as well as after it closes. -/
theorem empty_tape_dumps_nothing :
    tapeEnter initialWorld = .ok (⟨[[]], some 0⟩, 0)
    ∧ print_logs ⟨[[]], some 0⟩ 0 = []
    ∧ print_logs (tapeExit ⟨[[]], some 0⟩) 0 = []
    ∧ runWindow initialWorld (fun w _ => (w, none)) = .ok (⟨[[]], none⟩, 0, none) :=
  ⟨rfl, rfl, rfl, rfl⟩

/-- Helper: string concatenation is associative. -/
theorem str_append_assoc (a b c : String) : a ++ b ++ c = a ++ (b ++ c) := by
  cases a
  cases b
  cases c
  apply congrArg String.mk
  apply List.append_assoc

/-- C8: `check_python_version` returns `True` exactly when the running
interpreter has `(major, minor)` equal to `(3, 11)` or `(3, 12)`; for every
version below 3.11 or above 3.12 it prints an error line and returns `False`,
upon which `main` exits with status 1. -/
theorem version_check_accepts_exactly_311_312 (major minor micro : Nat) :
    ((check_python_version major minor micro).1 = true ↔
      (major = 3 ∧ (minor = 11 ∨ minor = 12)))
    ∧ ((check_python_version major minor micro).1 = false →
        main_version_gate major minor micro = .exitCode 1
        ∧ ∃ m rest, m ∈ (check_python_version major minor micro).2 ∧ m = "Error" ++ rest) := by
  have hiff : (check_python_version major minor micro).1 = true ↔
      (major = 3 ∧ (minor = 11 ∨ minor = 12)) := by
    unfold check_python_version tuple2Lt
    by_cases h1 : major < 3 ∨ (major = 3 ∧ minor < 11)
    · simp [h1]
      omega
    · by_cases h2 : 3 < major ∨ (3 = major ∧ 12 < minor)
      · simp [h1, h2]
        omega
      · simp [h1, h2]
        omega
  refine ⟨hiff, ?_⟩
  intro hf
  refine ⟨by simp [main_version_gate, hf], ?_⟩
  unfold check_python_version tuple2Lt
  by_cases h1 : major < 3 ∨ (major = 3 ∧ minor < 11)
  · simp only [h1, decide_True, if_true]
    refine ⟨"Error: Python 3.11+ required, found " ++ toString major ++ "." ++ toString minor,
            ": Python 3.11+ required, found " ++ toString major ++ "." ++ toString minor, ?_, ?_⟩
    · simp
    · rw [show ("Error: Python 3.11+ required, found " : String) =
            "Error" ++ ": Python 3.11+ required, found " from rfl]
      simp only [str_append_assoc]
  · by_cases h2 : 3 < major ∨ (3 = major ∧ 12 < minor)
    · simp only [h1, h2, decide_True, decide_False, if_false, if_true]
      refine ⟨"Error: Python " ++ toString major ++ "." ++ toString minor ++
                " not supported by TensorFlow 2.15",
              ": Python " ++ toString major ++ "." ++ toString minor ++
                " not supported by TensorFlow 2.15", ?_, ?_⟩
      · simp
      · rw [show ("Error: Python " : String) = "Error" ++ ": Python " from rfl]
        simp only [str_append_assoc]
    · have h3 : major = 3 ∧ (minor = 11 ∨ minor = 12) := by omega
      rw [hiff.mpr h3] at hf
      simp at hf

/-- C9 (amended): on a nonzero exit with `check=True`, `run_command` catches
`CalledProcessError` and returns `None` instead of propagating; the callers
`install_requirements`, `setup_jupyter_kernel`, `verify_installation` and
`create_virtual_environment` treat a `None` result as failure of that step,
but `check_system_dependencies` discards the results of its package-manager
commands and reports success regardless. -/
theorem run_command_none_and_caller_handling (code : Int) (hc : code ≠ 0)
    (rc : String → Option CmdResult) (pe pip : String)
    (hu : rc (pe ++ " -m pip install --upgrade pip") = none) :
    run_command true code = none
    ∧ install_requirements true pe pip rc = false
    ∧ setup_jupyter_kernel pe (fun _ => none) = false
    ∧ verify_installation pe (fun _ => none) = false
    ∧ create_virtual_environment false "n" pe "csci1470" (fun _ => none) = none
    ∧ check_system_dependencies "linux" (fun t => t == "apt-get") (fun _ => none) = true := by
  refine ⟨?_, ?_, rfl, rfl, rfl, rfl⟩
  · simp [run_command, subprocess_run, hc]
  · simp [install_requirements, hu]

/-- C9 witness: the amended claim instantiated at exit code 1 and the
everywhere-`None` run_command oracle. -/
theorem run_command_none_and_caller_handling_witness :
    run_command true 1 = none
    ∧ install_requirements true "python" "pip" (fun _ => none) = false
    ∧ setup_jupyter_kernel "python" (fun _ => none) = false
    ∧ verify_installation "python" (fun _ => none) = false
    ∧ create_virtual_environment false "n" "python" "csci1470" (fun _ => none) = none
    ∧ check_system_dependencies "linux" (fun t => t == "apt-get") (fun _ => none) = true :=
  run_command_none_and_caller_handling 1 (by decide) (fun _ => none) "python" "pip" rfl

/-- C9 counterexample: not every caller treats a `None` result from
`run_command` as failure — on linux with apt-get present and every
`run_command` call returning `None`, `check_system_dependencies` still
returns `True`, ignoring the discarded results of `sudo apt-get update` and
`sudo apt-get install`. -/
theorem check_system_dependencies_ignores_run_command_result :
    check_system_dependencies "linux" (fun t => t == "apt-get") (fun _ => none) = true := rfl

/-- C10: the `Square` constructor accepts no arguments beyond `self`, so every
two-argument construction `Square(name, length)` — as performed by the local
test — raises `TypeError` and never produces a square object. -/
theorem square_two_argument_construction_raises (a b : PyValue) :
    Square.construct [a, b] = .error .typeError
    ∧ ∀ sq, Square.construct [a, b] ≠ .ok sq := by
  constructor
  · rfl
  · intro sq h
    simp [Square.construct] at h
